import Mathlib

/-!
Verification of the domain-exporter repository's core engine against its
natural-language specification.

The Go sources are shallowly embedded: pure parsing functions become Lean
functions on `List Char` / `String`; external libraries (the structured
whois-parser, the YAML unmarshaller, the network WHOIS client) are modelled
as oracle parameters, since only their call sites belong to the repository;
stateful code (Prometheus gauge vectors, the trigger channel, the worker
semaphore) becomes explicit state passing or a step relation.

`GoTime` models Go's `time.Time` by its wall-clock fields; the layout engine
`goTimeParse` models the Go standard library's `time.Parse` on exactly the
layout strings appearing in the sources (fixed-width numeric fields, month
and weekday names, fractional seconds, numeric and abbreviated time zones,
everything else literal, full-input consumption, range validation).
-/

namespace DomainExporter

/-- Wall-clock instant, modelling Go `time.Time` (zone offsets are not
tracked: every date the claims touch is compared by its wall-clock fields,
exactly as the source does after parsing). -/
structure GoTime where
  year : Nat
  month : Nat
  day : Nat
  hour : Nat
  minute : Nat
  second : Nat
deriving DecidableEq, Repr

/-- Go's zero `time.Time` (January 1, year 1, 00:00:00). -/
def goTimeZero : GoTime := ⟨1, 1, 1, 0, 0, 0⟩

/-- Injective key for chronological comparison (bases exceed each field's
range). -/
def GoTime.key (t : GoTime) : Nat :=
  ((((t.year * 13 + t.month) * 32 + t.day) * 24 + t.hour) * 60 + t.minute) * 60
    + t.second

/-- `t` is not later than `u`. -/
def GoTime.le (t u : GoTime) : Prop := t.key ≤ u.key

/-- `t` is strictly earlier than `u` (Go `t.Before u`; `u.After t`). -/
def GoTime.lt (t u : GoTime) : Prop := t.key < u.key

instance (t u : GoTime) : Decidable (GoTime.le t u) := by
  unfold GoTime.le; infer_instance

instance (t u : GoTime) : Decidable (GoTime.lt t u) := by
  unfold GoTime.lt; infer_instance

/-- Go `t.AddDate(n, 0, 0)` for the non-negative shifts the source uses
(Feb-29 normalisation never arises in the claims). -/
def GoTime.addYears (t : GoTime) (n : Nat) : GoTime := { t with year := t.year + n }

/-- Go `t.AddDate(-1, 0, 0)` (years in the source stay far above 1). -/
def GoTime.subYears (t : GoTime) (n : Nat) : GoTime := { t with year := t.year - n }

/-- Leap-year test, as Go `time` implements it. -/
def isLeapYear (y : Nat) : Bool := y % 4 == 0 && (y % 100 != 0 || y % 400 == 0)

/-- Days in a month, as Go `time` implements it. -/
def daysInMonth (y m : Nat) : Nat :=
  if m == 2 then (if isLeapYear y then 29 else 28)
  else if m == 4 || m == 6 || m == 9 || m == 11 then 30
  else 31

/-- Civil day number (days since 0000-03-01, Gregorian, for years ≥ 1);
used to translate wall-clock instants to Unix seconds the way Go's
monotonic-free `Unix()` does. -/
def civilDays (y m d : Nat) : Nat :=
  let yy := if m ≤ 2 then y - 1 else y
  let era := yy / 400
  let yoe := yy % 400
  let mp := (m + 9) % 12
  let doy := (153 * mp + 2) / 5 + d - 1
  let doe := yoe * 365 + yoe / 4 - yoe / 100 + doy
  era * 146097 + doe

/-- Civil day number of 1970-01-01. -/
def epochCivilDays : Nat := civilDays 1970 1 1

/-- Go `t.Unix()` (seconds, UTC reading of the wall clock). -/
def GoTime.unix (t : GoTime) : Int :=
  ((civilDays t.year t.month t.day : Int) - (epochCivilDays : Int)) * 86400
    + (t.hour * 3600 + t.minute * 60 + t.second : Nat)

/-- Go `int(time.Until(e).Hours() / 24)` computed at instant `now`:
seconds between the instants, divided by 86400 truncating toward zero
(Go's float conversion truncates toward zero the same way on every value
the source can produce). -/
def daysUntil (now e : GoTime) : Int := (e.unix - now.unix).tdiv 86400

/- ## Character and string helpers (ASCII, as the WHOIS text the source
handles is ASCII) -/

/-- Whitespace class of Go `\s` / `strings.TrimSpace` on the source's
inputs. -/
def isWs (c : Char) : Bool := c == ' ' || c == '\t' || c == '\n' || c == '\r'

def isDigit (c : Char) : Bool := '0' ≤ c && c ≤ '9'

def digitVal (c : Char) : Nat := c.toNat - '0'.toNat

/-- ASCII lower-casing, as Go's case-insensitive regex flag and
`strings.ToLower` behave on the source's patterns. -/
def lowerChar (c : Char) : Char :=
  if 'A' ≤ c && c ≤ 'Z' then Char.ofNat (c.toNat + 32) else c

def lowerStr (s : List Char) : List Char := s.map lowerChar

/-- Does `pre` start `s`? -/
def startsWith : List Char → List Char → Bool
  | [], _ => true
  | _ :: _, [] => false
  | p :: ps, c :: cs => p == c && startsWith ps cs

/-- Case-insensitive `startsWith`. -/
def startsWithCI (pre s : List Char) : Bool := startsWith (lowerStr pre) (lowerStr s)

/-- Does `needle` occur in `hay`? (Go `strings.Contains`.) -/
def containsSub (needle : List Char) : List Char → Bool
  | [] => startsWith needle []
  | c :: cs => startsWith needle (c :: cs) || containsSub needle cs

def trimLeft (s : List Char) : List Char := s.dropWhile isWs

def trimRight (s : List Char) : List Char := (trimLeft s.reverse).reverse

/-- Go `strings.TrimSpace`. -/
def trimSpace (s : List Char) : List Char := trimRight (trimLeft s)

/-- Split at every occurrence of character `sep` (Go `strings.Split` with a
one-character separator). -/
def splitOnChar (sep : Char) : List Char → List (List Char)
  | [] => [[]]
  | c :: cs =>
    let rest := splitOnChar sep cs
    if c == sep then [] :: rest
    else match rest with
      | [] => [[c]]
      | r :: rs => (c :: r) :: rs

/-- Everything before the first occurrence of substring `sep` (the `[0]`
element of Go `strings.Split`; the whole string when `sep` is absent). -/
def takeUntilSub (sep : List Char) : List Char → List Char
  | [] => []
  | c :: cs => if startsWith sep (c :: cs) then [] else c :: takeUntilSub sep cs

/-- Go `strings.SplitN(line, ":", 2)` modelled as the pair around the first
colon; `none` when no colon occurs (length-1 result in Go). -/
def splitFirstColon : List Char → Option (List Char × List Char)
  | [] => none
  | c :: cs =>
    if c == ':' then some ([], cs)
    else match splitFirstColon cs with
      | none => none
      | some (a, b) => some (c :: a, b)

/- ## The `time.Parse` layout engine

Go reference-time layouts are compiled to token lists; a token-directed
parser then consumes the input.  Only constructs occurring in the source's
layout strings are compiled: `2006` (4-digit year), `01`/`02`/`04`/`05`
(zero-padded month/day/minute/second, exactly two digits), `2` (day, one or
two digits), `15` (hour, one or two digits), `Jan`/`January` (month names),
`Mon` (weekday name, value ignored), `MST` (zone abbreviation, ignored),
`.000` (three fractional digits, ignored), `-07:00` (numeric zone,
ignored), and every other character literally.  As in Go, the whole input
must be consumed and the fields must pass range validation. -/

inductive LayoutTok where
  | year4
  | month2
  | day2
  | dayFlex
  | hourFlex
  | minute2
  | second2
  | monthAbbr
  | monthLong
  | weekdayAbbr
  | zoneAbbr
  | frac3
  | zoneColon
  | lit (c : Char)
deriving DecidableEq, Repr

/-- Compile a Go layout string into tokens (longest construct first, the
way Go's `nextStdChunk` scans). -/
def layoutTokens : List Char → List LayoutTok
  | [] => []
  | '2' :: '0' :: '0' :: '6' :: rest => .year4 :: layoutTokens rest
  | 'J' :: 'a' :: 'n' :: 'u' :: 'a' :: 'r' :: 'y' :: rest => .monthLong :: layoutTokens rest
  | 'J' :: 'a' :: 'n' :: rest => .monthAbbr :: layoutTokens rest
  | 'M' :: 'o' :: 'n' :: rest => .weekdayAbbr :: layoutTokens rest
  | 'M' :: 'S' :: 'T' :: rest => .zoneAbbr :: layoutTokens rest
  | '0' :: '1' :: rest => .month2 :: layoutTokens rest
  | '0' :: '2' :: rest => .day2 :: layoutTokens rest
  | '0' :: '4' :: rest => .minute2 :: layoutTokens rest
  | '0' :: '5' :: rest => .second2 :: layoutTokens rest
  | '1' :: '5' :: rest => .hourFlex :: layoutTokens rest
  | '2' :: rest => .dayFlex :: layoutTokens rest
  | '.' :: '0' :: '0' :: '0' :: rest => .frac3 :: layoutTokens rest
  | '-' :: '0' :: '7' :: ':' :: '0' :: '0' :: rest => .zoneColon :: layoutTokens rest
  | c :: rest => .lit c :: layoutTokens rest

/-- Partially assembled parse result (Go's zero time as the default). -/
structure TimeBuild where
  year : Nat := 1
  month : Nat := 1
  day : Nat := 1
  hour : Nat := 0
  minute : Nat := 0
  second : Nat := 0
deriving Repr

/-- Exactly two digits (Go `getnum` with `fixed = true`). -/
def readFixed2 : List Char → Option (Nat × List Char)
  | a :: b :: rest =>
    if isDigit a && isDigit b then some (digitVal a * 10 + digitVal b, rest) else none
  | _ => none

/-- One or two digits (Go `getnum` with `fixed = false`). -/
def readFlex2 : List Char → Option (Nat × List Char)
  | a :: b :: rest =>
    if isDigit a then
      if isDigit b then some (digitVal a * 10 + digitVal b, rest)
      else some (digitVal a, b :: rest)
    else none
  | [a] => if isDigit a then some (digitVal a, []) else none
  | [] => none

/-- Exactly four digits (Go's `2006` year field). -/
def readFixed4 : List Char → Option (Nat × List Char)
  | a :: b :: c :: d :: rest =>
    if isDigit a && isDigit b && isDigit c && isDigit d then
      some (((digitVal a * 10 + digitVal b) * 10 + digitVal c) * 10 + digitVal d, rest)
    else none
  | _ => none

def monthAbbrevs : List (List Char) :=
  [['J','a','n'], ['F','e','b'], ['M','a','r'], ['A','p','r'], ['M','a','y'],
   ['J','u','n'], ['J','u','l'], ['A','u','g'], ['S','e','p'], ['O','c','t'],
   ['N','o','v'], ['D','e','c']]

def monthLongNames : List (List Char) :=
  [['J','a','n','u','a','r','y'], ['F','e','b','r','u','a','r','y'],
   ['M','a','r','c','h'], ['A','p','r','i','l'], ['M','a','y'],
   ['J','u','n','e'], ['J','u','l','y'], ['A','u','g','u','s','t'],
   ['S','e','p','t','e','m','b','e','r'], ['O','c','t','o','b','e','r'],
   ['N','o','v','e','m','b','e','r'], ['D','e','c','e','m','b','e','r']]

def weekdayAbbrevs : List (List Char) :=
  [['S','u','n'], ['M','o','n'], ['T','u','e'], ['W','e','d'], ['T','h','u'],
   ['F','r','i'], ['S','a','t']]

/-- Match one name from `names` (case-insensitively, as Go's `lookup`
does); returns its 1-based index and the rest of the input. -/
def readName (names : List (List Char)) (s : List Char) : Option (Nat × List Char) :=
  go names 1
where
  go : List (List Char) → Nat → Option (Nat × List Char)
    | [], _ => none
    | n :: ns, i =>
      if startsWithCI n s then some (i, s.drop n.length) else go ns (i + 1)

def isUpperAlpha (c : Char) : Bool := 'A' ≤ c && c ≤ 'Z'

/-- Zone abbreviation for the `MST` field: three or four capital letters
(the shapes Go's `parseTimeZone` accepts that the source's data can
carry); the value is ignored. -/
def readZoneAbbr : List Char → Option (List Char)
  | a :: b :: c :: d :: rest =>
    if isUpperAlpha a && isUpperAlpha b && isUpperAlpha c then
      if isUpperAlpha d then some rest else some (d :: rest)
    else none
  | [a, b, c] =>
    if isUpperAlpha a && isUpperAlpha b && isUpperAlpha c then some [] else none
  | _ => none

/-- Numeric `±hh:mm` zone for the `-07:00` field; the offset is ignored
(Go keeps the parsed wall clock in that zone, which is what the source
compares). -/
def readZoneColon : List Char → Option (List Char)
  | s0 :: rest =>
    if s0 == '+' || s0 == '-' then
      match readFixed2 rest with
      | none => none
      | some (_, r1) =>
        match r1 with
        | ':' :: r2 =>
          match readFixed2 r2 with
          | none => none
          | some (_, r3) => some r3
        | _ => none
    else none
  | [] => none

def readFrac3 : List Char → Option (List Char)
  | '.' :: a :: b :: c :: rest =>
    if isDigit a && isDigit b && isDigit c then some rest else none
  | _ => none

/-- Run the token list over the input, building up the fields. -/
def runLayout : List LayoutTok → List Char → TimeBuild → Option TimeBuild
  | [], [], b => some b
  | [], _ :: _, _ => none
  | .year4 :: ts, s, b =>
    match readFixed4 s with
    | some (v, r) => runLayout ts r { b with year := v }
    | none => none
  | .month2 :: ts, s, b =>
    match readFixed2 s with
    | some (v, r) => runLayout ts r { b with month := v }
    | none => none
  | .day2 :: ts, s, b =>
    match readFixed2 s with
    | some (v, r) => runLayout ts r { b with day := v }
    | none => none
  | .dayFlex :: ts, s, b =>
    match readFlex2 s with
    | some (v, r) => runLayout ts r { b with day := v }
    | none => none
  | .hourFlex :: ts, s, b =>
    match readFlex2 s with
    | some (v, r) => runLayout ts r { b with hour := v }
    | none => none
  | .minute2 :: ts, s, b =>
    match readFixed2 s with
    | some (v, r) => runLayout ts r { b with minute := v }
    | none => none
  | .second2 :: ts, s, b =>
    match readFixed2 s with
    | some (v, r) => runLayout ts r { b with second := v }
    | none => none
  | .monthAbbr :: ts, s, b =>
    match readName monthAbbrevs s with
    | some (v, r) => runLayout ts r { b with month := v }
    | none => none
  | .monthLong :: ts, s, b =>
    match readName monthLongNames s with
    | some (v, r) => runLayout ts r { b with month := v }
    | none => none
  | .weekdayAbbr :: ts, s, b =>
    match readName weekdayAbbrevs s with
    | some (_, r) => runLayout ts r b
    | none => none
  | .zoneAbbr :: ts, s, b =>
    match readZoneAbbr s with
    | some r => runLayout ts r b
    | none => none
  | .frac3 :: ts, s, b =>
    match readFrac3 s with
    | some r => runLayout ts r b
    | none => none
  | .zoneColon :: ts, s, b =>
    match readZoneColon s with
    | some r => runLayout ts r b
    | none => none
  | .lit c :: ts, s, b =>
    match s with
    | x :: r => if x == c then runLayout ts r b else none
    | [] => none

/-- Range validation `time.Parse` applies after field extraction. -/
def validBuild (b : TimeBuild) : Bool :=
  1 ≤ b.month && b.month ≤ 12 && 1 ≤ b.day && b.day ≤ daysInMonth b.year b.month
    && b.hour < 24 && b.minute < 60 && b.second < 60

/-- Model of Go `time.Parse layout value` restricted to the source's
layouts: `some t` on success, `none` on any parse or range error. -/
def goTimeParse (layout value : String) : Option GoTime :=
  match runLayout (layoutTokens layout.data) value.data {} with
  | none => none
  | some b =>
    if validBuild b then some ⟨b.year, b.month, b.day, b.hour, b.minute, b.second⟩
    else none

/-- First layout in `fmts` that parses `v` wins (the source's format
loops). -/
def tryFormats (fmts : List String) (v : String) : Option GoTime :=
  match fmts with
  | [] => none
  | f :: fs =>
    match goTimeParse f v with
    | some t => some t
    | none => tryFormats fs v

/- ## whois.go — current resolver

`parseExpirationFromRawData` applies regexes of the shape
`(?i)Label:\s*(.+)` to the whole WHOIS text.  `findLabelValue` models one
such regex: the leftmost case-insensitive occurrence of the label that is
followed (after optional whitespace, newlines included, as `\s*` matches
them) by at least one non-newline character; the capture runs to the end
of that line.  (The degenerate backtracking case where `(.+)` would have
to capture part of the whitespace run itself — a whitespace-only tail —
is modelled as no match; `TrimSpace` + date parsing reject it in the
source anyway.) -/
def findLabelValue (label : List Char) : List Char → Option (List Char)
  | [] => none
  | c :: cs =>
    if startsWithCI label (c :: cs) then
      let rem := ((c :: cs).drop label.length).dropWhile isWs
      if rem.isEmpty then findLabelValue label cs
      else some (rem.takeWhile (fun x => !(x == '\n')))
    else findLabelValue label cs

/-- Tail of the input after a `\s+` run followed by the three characters
`t1 t2 t3`, anchored at the head; `none` if the head is not such a match
(helper for the `\s+UTC` / `\s+GMT` regex replacements). -/
def afterWsTok3 (t1 t2 t3 : Char) : List Char → Option (List Char)
  | x :: xs => if isWs x then afterWsTok3Star t1 t2 t3 xs else none
  | [] => none
where
  afterWsTok3Star (t1 t2 t3 : Char) : List Char → Option (List Char)
    | x :: xs =>
      if isWs x then afterWsTok3Star t1 t2 t3 xs
      else
        match x :: xs with
        | a :: b :: c :: r => if a == t1 && b == t2 && c == t3 then some r else none
        | _ => none
    | [] => none

/-- Fuelled scan deleting every `\s+`+token match (Go
`regexp.ReplaceAllString` with the empty replacement); the fuel is the
input length, and every recursive step consumes at least one character. -/
def stripWsTok3Fuel (t1 t2 t3 : Char) : Nat → List Char → List Char
  | 0, s => s
  | _ + 1, [] => []
  | fuel + 1, x :: xs =>
    match afterWsTok3 t1 t2 t3 (x :: xs) with
    | some r => stripWsTok3Fuel t1 t2 t3 fuel r
    | none => x :: stripWsTok3Fuel t1 t2 t3 fuel xs

def stripWsTok3 (t1 t2 t3 : Char) (s : List Char) : List Char :=
  stripWsTok3Fuel t1 t2 t3 s.length s

/-- Tail after a `\s+\+\d{4}` match anchored at the head (regex
`\s+\+\d{4}`, exactly four digits). -/
def afterWsPlus4 : List Char → Option (List Char)
  | x :: xs => if isWs x then afterWsPlus4Star xs else none
  | [] => none
where
  afterWsPlus4Star : List Char → Option (List Char)
    | x :: xs =>
      if isWs x then afterWsPlus4Star xs
      else
        match x :: xs with
        | p :: d1 :: d2 :: d3 :: d4 :: r =>
          if p == '+' && isDigit d1 && isDigit d2 && isDigit d3 && isDigit d4 then some r
          else none
        | _ => none
    | [] => none

def stripWsPlus4Fuel : Nat → List Char → List Char
  | 0, s => s
  | _ + 1, [] => []
  | fuel + 1, x :: xs =>
    match afterWsPlus4 (x :: xs) with
    | some r => stripWsPlus4Fuel fuel r
    | none => x :: stripWsPlus4Fuel fuel xs

def stripWsPlus4 (s : List Char) : List Char := stripWsPlus4Fuel s.length s

/-- The sixteen layouts of `parseFlexibleDate` (whois.go lines 265-282), in
source order. -/
def flexibleFormats : List String :=
  ["2006-01-02T15:04:05Z",
   "2006-01-02T15:04:05.000Z",
   "2006-01-02T15:04:05",
   "2006-01-02 15:04:05",
   "2006-01-02",
   "02-Jan-2006",
   "2006/01/02",
   "01/02/2006",
   "2006.01.02",
   "January 02 2006",
   "Jan 02 2006",
   "02 Jan 2006",
   "2006-01-02 15:04:05 UTC",
   "Mon Jan 02 15:04:05 MST 2006",
   "2006-01-02T15:04:05-07:00",
   "2006-01-02T15:04:05+00:00"]

/-- whois.go `parseFlexibleDate`: trim, delete `\s+UTC`, `\s+GMT` and
`\s+\+\d{4}` matches, then return the first layout that parses (`none`
models the returned error). -/
def parseFlexibleDate (dateStr : String) : Option GoTime :=
  let s := trimSpace dateStr.data
  let s := stripWsTok3 'U' 'T' 'C' s
  let s := stripWsTok3 'G' 'M' 'T' s
  let s := stripWsPlus4 s
  tryFormats flexibleFormats s.asString

/-- whois.go expiration-field labels (the fixed part of each
`expirationPatterns` regex), in source order. -/
def expirationLabels : List String :=
  ["Registry Expiry Date:",
   "Registrar Registration Expiration Date:",
   "Expiry Date:",
   "Expiration Date:",
   "Expires:",
   "Expire:",
   "Expiration Time:",
   "Registry Expiration Date:",
   "Domain Expiration Date:",
   "Paid-till:"]

/-- whois.go registrar labels (`registrarPatterns`). -/
def registrarLabels : List String :=
  ["Registrar:", "Sponsoring Registrar:", "Registrar Name:"]

/-- whois.go `DomainInfo`. -/
structure WhoisDomainInfo where
  domain : String
  expiryDate : GoTime
  registrar : String
  status : String
  method : String
deriving DecidableEq, Repr

/-- The expiration loop of `parseExpirationFromRawData`: each pattern's
first match is trimmed and handed to `parseFlexibleDate`; a parse failure
moves on to the next pattern. -/
def findExpiryByLabels : List String → List Char → Option GoTime
  | [], _ => none
  | p :: ps, raw =>
    match findLabelValue p.data raw with
    | some v =>
      match parseFlexibleDate (trimSpace v).asString with
      | some d => some d
      | none => findExpiryByLabels ps raw
    | none => findExpiryByLabels ps raw

/-- The registrar loop of `parseExpirationFromRawData` (first matching
pattern wins; empty result becomes "Unknown"). -/
def findRegistrarByLabels : List String → List Char → Option String
  | [], _ => none
  | p :: ps, raw =>
    match findLabelValue p.data raw with
    | some v => some (trimSpace v).asString
    | none => findRegistrarByLabels ps raw

/-- whois.go `parseExpirationFromRawData` — manual extraction over the raw
WHOIS text. -/
def parseExpirationFromRawData (domain whoisData : String) : Except String WhoisDomainInfo :=
  match findExpiryByLabels expirationLabels whoisData.data with
  | none => .error "无法从原始数据中提取过期时间"
  | some d =>
    let registrar :=
      match findRegistrarByLabels registrarLabels whoisData.data with
      | some r => if r == "" then "Unknown" else r
      | none => "Unknown"
    .ok { domain := domain, expiryDate := d, registrar := registrar,
          status := "active", method := "whois(manual_parse)" }

/-- Result shape of the external structured parser
(`whoisparser.Parse`): the fields whois.go reads. -/
structure ParsedWhois where
  expirationDate : String
  registrarName : String
  statuses : List String
deriving DecidableEq, Repr

/-- The seven fallback layouts of `parseDomainInfo` (whois.go lines
106-114). -/
def parseDomainInfoFormats : List String :=
  ["2006-01-02 15:04:05",
   "2006-01-02",
   "02-Jan-2006",
   "2006/01/02",
   "2006-01-02T15:04:05.000Z",
   "Mon Jan 02 15:04:05 MST 2006",
   "January 02 2006"]

/-- whois.go `parseDomainInfo`, with the external structured parser passed
as an oracle `wp`.  Note the source's control flow: a parser *error*
returns immediately; manual extraction runs only when the parser
succeeded but the expiration field is empty or matches no layout. -/
def parseDomainInfo (wp : String → Except String ParsedWhois)
    (domain whoisData : String) : Except String WhoisDomainInfo :=
  match wp whoisData with
  | .error e => .error ("whois解析失败: " ++ e)
  | .ok parsed =>
    if parsed.expirationDate == "" then
      parseExpirationFromRawData domain whoisData
    else
      match tryFormats ("2006-01-02T15:04:05Z" :: parseDomainInfoFormats)
          parsed.expirationDate with
      | some d =>
        .ok { domain := domain, expiryDate := d, registrar := parsed.registrarName,
              status := parsed.statuses.headD "unknown", method := "whois" }
      | none => parseExpirationFromRawData domain whoisData

/-- whois.go `maxRetries` in `GetDomainInfoWithFallback`. -/
def fallbackMaxRetries : Nat := 2

/-- The retry loop of `GetDomainInfoWithFallback`: `std attempt` is the
outcome of `GetDomainInfo` on that attempt (network oracle); the returned
list records the `time.Sleep(attempt × 1s)` delays, in seconds. -/
def fallbackLoop (std : Nat → Except String WhoisDomainInfo) :
    Nat → Nat → Except String WhoisDomainInfo × List Nat
  | _, 0 => (.error "WHOIS查询失败: ", [])
  | attempt, fuel + 1 =>
    match std attempt with
    | .ok info => (.ok info, [])
    | .error e =>
      if fuel == 0 then (.error ("WHOIS查询失败: " ++ e), [])
      else
        let r := fallbackLoop std (attempt + 1) fuel
        (r.1, attempt :: r.2)

/-- whois.go `GetDomainInfoWithFallback` (the current caller-level retry
wrapper: standard queries only, no backup servers in scope). -/
def GetDomainInfoWithFallback (std : Nat → Except String WhoisDomainInfo) :
    Except String WhoisDomainInfo × List Nat :=
  fallbackLoop std 1 fallbackMaxRetries

/-- Older draft resolver (src/unnamed/part_001)
`GetDomainInfoWithBackupServers`: each server is tried once via
`queryWhoisServer` (modelled by the oracle `query`, which performs the
method tagging the source does inside that call); the final error wraps
the last failure. -/
def GetDomainInfoWithBackupServers (query : String → Except String WhoisDomainInfo) :
    List String → String → Except String WhoisDomainInfo
  | [], lastErr => .error ("所有备用WHOIS服务器都无法访问，最后错误: " ++ lastErr)
  | s :: rest, _ =>
    match query s with
    | .ok info => .ok info
    | .error e => GetDomainInfoWithBackupServers query rest e

/- ## The checker draft embedded in src/.github/README.md -/

/-- Strict wall-clock comparison, Go `t.Before u` / `u.After t` as a
Bool. -/
def GoTime.beforeb (t u : GoTime) : Bool := t.key < u.key

/-- The README checker's plausibility check inside
`parseExpiryDateManually`:
`t.After(now.AddDate(-1,0,0)) && t.Before(now.AddDate(20,0,0))`. -/
def checkerWindow (now t : GoTime) : Bool :=
  (now.subYears 1).beforeb t && t.beforeb (now.addYears 20)

/-- The nineteen `expiryFields` labels of the README checker, in source
order. -/
def checkerExpiryFields : List String :=
  ["Registry Expiry Date:",
   "Registrar Registration Expiration Date:",
   "Expiry Date:",
   "Expiration Date:",
   "Expires:",
   "Expiration Time:",
   "Registry Expiry:",
   "Domain Expiration Date:",
   "paid-till:",
   "expire:",
   "Expires On:",
   "Registration Expiration Date:",
   "Domain expires:",
   "Expiry date:",
   "Valid Until:",
   "Renewal date:",
   "Record expires on",
   "expires:",
   "Expiration:"]

/-- The seventeen formats of the README checker's
`parseExpiryDateManually`, in source order. -/
def checkerFormats : List String :=
  ["2006-01-02T15:04:05Z",
   "2006-01-02T15:04:05.000Z",
   "2006-01-02T15:04:05-07:00",
   "2006-01-02 15:04:05 UTC",
   "2006-01-02 15:04:05",
   "2006-01-02",
   "02-Jan-2006",
   "2-Jan-2006",
   "2006/01/02",
   "01/02/2006",
   "2006.01.02",
   "Mon Jan 02 15:04:05 MST 2006",
   "Mon Jan 2 15:04:05 MST 2006",
   "January 02, 2006",
   "Jan 02, 2006",
   "02 Jan 2006",
   "2 Jan 2006"]

/-- The value-cleaning steps of `parseExpiryDateManually`: keep what
precedes " (", " UTC" and "T". -/
def checkerCleanDate (s : List Char) : List Char :=
  takeUntilSub ['T'] (takeUntilSub [' ', 'U', 'T', 'C'] (takeUntilSub [' ', '('] s))

/-- The format loop of `parseExpiryDateManually`: first layout that parses
*and* lands inside the plausibility window wins (a parse outside the
window falls through to the next layout). -/
def tryFormatsWindow (now : GoTime) : List String → String → Option GoTime
  | [], _ => none
  | f :: fs, v =>
    match goTimeParse f v with
    | some t => if checkerWindow now t then some t else tryFormatsWindow now fs v
    | none => tryFormatsWindow now fs v

/-- One `(\d…)sep(\d…)sep(\d…)` pattern of `extractDateFromString`, tried
at the current position only.  `firstIs4` selects between the
`\d{4}sep\d{1,2}sep\d{1,2}` and `\d{1,2}sep\d{1,2}sep\d{4}` shapes; the
returned booleans tell whether group 1 / group 3 have four digits (what
the source's `len(matches[i]) == 4` tests inspect).  Since the separators
are non-digits, the greedy one-or-two-digit read never needs regex
backtracking. -/
def matchSepPat (firstIs4 : Bool) (sep : Char) (s : List Char) :
    Option (Nat × Nat × Nat × Bool × Bool) :=
  if firstIs4 then
    match readFixed4 s with
    | none => none
    | some (g1, r1) =>
      match r1 with
      | c1 :: r2 =>
        if c1 == sep then
          match readFlex2 r2 with
          | none => none
          | some (g2, r3) =>
            match r3 with
            | c2 :: r4 =>
              if c2 == sep then
                match readFlex2 r4 with
                | none => none
                | some (g3, _) => some (g1, g2, g3, true, false)
              else none
            | [] => none
        else none
      | [] => none
  else
    match readFlex2 s with
    | none => none
    | some (g1, r1) =>
      match r1 with
      | c1 :: r2 =>
        if c1 == sep then
          match readFlex2 r2 with
          | none => none
          | some (g2, r3) =>
            match r3 with
            | c2 :: r4 =>
              if c2 == sep then
                match readFixed4 r4 with
                | none => none
                | some (g3, _) => some (g1, g2, g3, false, true)
              else none
            | [] => none
        else none
      | [] => none

/-- Leftmost match of a positional matcher (Go regexp
`FindStringSubmatch`). -/
def scanLeftmost (m : List Char → Option (Nat × Nat × Nat × Bool × Bool)) :
    List Char → Option (Nat × Nat × Nat × Bool × Bool)
  | [] => m []
  | c :: cs =>
    match m (c :: cs) with
    | some r => some r
    | none => scanLeftmost m cs

/-- Go `time.Date y m d 0 0 0 0 UTC` for the guarded ranges of
`extractDateFromString` (month 1–12, day 1–31: a day past the month's end
normalises into the following month, as Go does). -/
def mkDateNorm (y m d : Nat) : GoTime :=
  let dim := daysInMonth y m
  if d ≤ dim then ⟨y, m, d, 0, 0, 0⟩
  else if m == 12 then ⟨y + 1, 1, d - dim, 0, 0, 0⟩
  else ⟨y, m + 1, d - dim, 0, 0, 0⟩

/-- The README checker's `extractDateFromString`: the four digit-grouping
patterns in source order; the first pattern that matches *and* passes the
year/month/day guard yields the date, `none` models the zero time. -/
def extractDateFromString (s : List Char) : Option GoTime :=
  go [(true, '-'), (false, '/'), (true, '.'), (false, '.')]
where
  go : List (Bool × Char) → Option GoTime
    | [] => none
    | (f4, sep) :: ps =>
      match scanLeftmost (matchSepPat f4 sep) s with
      | none => go ps
      | some (g1, g2, g3, l1is4, l3is4) =>
        let ymd : Option (Nat × Nat × Nat) :=
          if l1is4 then some (g1, g2, g3)
          else if l3is4 then some (g3, g1, g2)
          else none
        match ymd with
        | none => go ps
        | some (y, m, d) =>
          if 2000 < y && y < 2100 && 1 ≤ m && m ≤ 12 && 1 ≤ d && d ≤ 31 then
            let t := mkDateNorm y m d
            if t == goTimeZero then go ps else some t
          else go ps

/-- The field loop of `parseExpiryDateManually` applied to one trimmed
line. -/
def parseExpiryLine (now : GoTime) (line : List Char) : List String → Option GoTime
  | [] => none
  | f :: fs =>
    if containsSub (lowerStr f.data) (lowerStr line) then
      match splitFirstColon line with
      | none => parseExpiryLine now line fs
      | some (_, afterColon) =>
        let dateStr := trimSpace afterColon
        if dateStr.isEmpty then parseExpiryLine now line fs
        else
          let cleaned := checkerCleanDate dateStr
          match tryFormatsWindow now checkerFormats cleaned.asString with
          | some t => some t
          | none =>
            match extractDateFromString cleaned with
            | some t => some t
            | none => parseExpiryLine now line fs
    else parseExpiryLine now line fs

/-- README checker `parseExpiryDateManually`: line-by-line scan of the
raw WHOIS text (`none` models the returned error). -/
def parseExpiryDateManually (now : GoTime) (raw : String) : Option GoTime :=
  go (splitOnChar '\n' raw.data)
where
  go : List (List Char) → Option GoTime
    | [] => none
    | l :: ls =>
      match parseExpiryLine now (trimSpace l) checkerExpiryFields with
      | some t => some t
      | none => go ls

/-- README checker `getGithubExpiryDate`: on a failed primary WHOIS query
(the oracle's error) it answers "one year from now" with no error; on
success it hands the text to the manual parser. -/
def getGithubExpiryDate (whoisResult : Except String String) (now : GoTime) :
    Except String GoTime :=
  match whoisResult with
  | .error _ => .ok (now.addYears 1)
  | .ok raw =>
    match parseExpiryDateManually now raw with
    | some t => .ok t
    | none => .error "unable to parse expiry time from WHOIS result"

/-- README checker `getStackOverflowExpiryDate` (same policy). -/
def getStackOverflowExpiryDate (whoisResult : Except String String) (now : GoTime) :
    Except String GoTime :=
  match whoisResult with
  | .error _ => .ok (now.addYears 1)
  | .ok raw =>
    match parseExpiryDateManually now raw with
    | some t => .ok t
    | none => .error "unable to parse expiry time from WHOIS result"

/-- The README checker's WHOIS retry loop (maximum three attempts, the
last failure kept). -/
def checkerRetryWhois (q : Nat → Except String String) : Nat → Nat → Except String String
  | _, 0 => .error ""
  | i, 1 => q i
  | i, fuel + 1 =>
    match q i with
    | .ok r => .ok r
    | .error _ => checkerRetryWhois q (i + 1) fuel

/-- Structured-parse layouts of the README checker's
`getDomainExpiryDate` ("2006-01-02" first, then the four of its `formats`
list). -/
def checkerStructuredFormats : List String :=
  ["2006-01-02", "2006-01-02T15:04:05Z", "2006-01-02 15:04:05", "02-Jan-2006", "2006/01/02"]

/-- README checker `getDomainExpiryDate`: special-case dispatch first
(github.com / stackoverflow.com registry), otherwise a three-attempt
WHOIS query, manual parsing first, then the structured parser (external,
as oracle `wp`). -/
def getDomainExpiryDate (whoisAttempt : Nat → Except String String)
    (wp : String → Except String ParsedWhois) (now : GoTime) (domain : String) :
    Except String GoTime :=
  if domain == "github.com" then getGithubExpiryDate (whoisAttempt 0) now
  else if domain == "stackoverflow.com" then getStackOverflowExpiryDate (whoisAttempt 0) now
  else
    match checkerRetryWhois whoisAttempt 0 3 with
    | .error e => .error ("WHOIS query failed (after 3 retries): " ++ e)
    | .ok result =>
      match parseExpiryDateManually now result with
      | some t => .ok t
      | none =>
        match wp result with
        | .error e => .error ("unable to parse WHOIS result: " ++ e)
        | .ok parsed =>
          if parsed.expirationDate == "" then
            .error "unable to extract expiry time from WHOIS result"
          else
            match tryFormats checkerStructuredFormats parsed.expirationDate with
            | some t => .ok t
            | none => .error "unable to extract expiry time from WHOIS result"

/-- README checker `DomainInfo`.  Its fields carry no resolution-method
tag of any kind. -/
structure CheckerDomainInfo where
  name : String
  description : String
  expiryDate : GoTime
  daysLeft : Int
  isValid : Bool
  error : String
  lastCheck : GoTime
deriving DecidableEq, Repr

/-- README checker `checkDomain`, as a pure function of the expiry-lookup
outcome (`getDomainDescription` returns the domain itself). -/
def checkerCheckDomain (expiryResult : Except String GoTime) (now : GoTime)
    (domain : String) : CheckerDomainInfo :=
  match expiryResult with
  | .error e =>
    { name := domain, description := domain, expiryDate := goTimeZero,
      daysLeft := 0, isValid := false, error := e, lastCheck := now }
  | .ok d =>
    { name := domain, description := domain, expiryDate := d,
      daysLeft := daysUntil now d, isValid := true, error := "", lastCheck := now }

/- ## The configuration package (first document of src/unnamed/part_002) -/

/-- The `Config` struct of the environment-first configuration package
(numeric fields are Go `int`, modelled as `Int` so `strconv.Atoi`
semantics carry over). -/
structure Config where
  domains : List String := []
  checkInterval : Int := 0
  port : Int := 0
  logLevel : String := ""
  timeout : Int := 0
  nacosUrl : String := ""
  username : String := ""
  password : String := ""
  namespaceId : String := ""
  dataId : String := ""
  group : String := ""
  skipSslVerify : Bool := false
deriving DecidableEq, Repr

/-- The values `os.Getenv` returns for the variables `loadFromEnv` reads
(the empty string means unset, exactly the test the source applies). -/
structure GoEnv where
  nacosUrl : String := ""
  nacosUsername : String := ""
  nacosPassword : String := ""
  nacosNamespaceId : String := ""
  nacosDataId : String := ""
  nacosGroup : String := ""
  nacosSkipSslVerify : String := ""
  domains : String := ""
  checkInterval : String := ""
  port : String := ""
  logLevel : String := ""
  timeout : String := ""
deriving DecidableEq, Repr

/-- Go `strconv.Atoi`: optional sign, one or more digits (overflow is out
of the source's range and not modelled). -/
def atoi (s : String) : Option Int :=
  match s.data with
  | [] => none
  | '-' :: ds => (digitsVal ds).map (fun n => -(n : Int))
  | '+' :: ds => (digitsVal ds).map (fun n => (n : Int))
  | ds => (digitsVal ds).map (fun n => (n : Int))
where
  digitsVal (ds : List Char) : Option Nat :=
    if ds.isEmpty then none
    else go ds 0
  go : List Char → Nat → Option Nat
    | [], acc => some acc
    | c :: cs, acc => if isDigit c then go cs (acc * 10 + digitVal c) else none

/-- `strings.Split(val, ",")` followed by the per-element `TrimSpace` of
`loadFromEnv`. -/
def splitDomains (val : String) : List String :=
  (splitOnChar ',' val.data).map (fun d => (trimSpace d).asString)

/-- part_002 `loadFromEnv`: every variable only overrides when non-empty;
`NACOS_SKIP_SSL_VERIFY` is true exactly for "true" or "1"; numeric
variables apply only when `Atoi` succeeds. -/
def loadFromEnv (env : GoEnv) : Config :=
  let c : Config := {}
  let c := if env.nacosUrl != "" then { c with nacosUrl := env.nacosUrl } else c
  let c := if env.nacosUsername != "" then { c with username := env.nacosUsername } else c
  let c := if env.nacosPassword != "" then { c with password := env.nacosPassword } else c
  let c := if env.nacosNamespaceId != "" then { c with namespaceId := env.nacosNamespaceId } else c
  let c := if env.nacosDataId != "" then { c with dataId := env.nacosDataId } else c
  let c := if env.nacosGroup != "" then { c with group := env.nacosGroup } else c
  let c := if env.nacosSkipSslVerify != "" then
      { c with skipSslVerify := env.nacosSkipSslVerify == "true" || env.nacosSkipSslVerify == "1" }
    else c
  let c := if env.domains != "" then { c with domains := splitDomains env.domains } else c
  let c := if env.checkInterval != "" then
      match atoi env.checkInterval with
      | some v => { c with checkInterval := v }
      | none => c
    else c
  let c := if env.port != "" then
      match atoi env.port with
      | some v => { c with port := v }
      | none => c
    else c
  let c := if env.logLevel != "" then { c with logLevel := env.logLevel } else c
  let c := if env.timeout != "" then
      match atoi env.timeout with
      | some v => { c with timeout := v }
      | none => c
    else c
  c

/-- part_002 `mergeConfig`: the file value fills only fields the
environment left at their zero value. -/
def mergeConfig (envConfig fileConfig : Config) : Config :=
  let c := envConfig
  let c := if c.nacosUrl == "" then { c with nacosUrl := fileConfig.nacosUrl } else c
  let c := if c.username == "" then { c with username := fileConfig.username } else c
  let c := if c.password == "" then { c with password := fileConfig.password } else c
  let c := if c.namespaceId == "" then { c with namespaceId := fileConfig.namespaceId } else c
  let c := if c.dataId == "" then { c with dataId := fileConfig.dataId } else c
  let c := if c.group == "" then { c with group := fileConfig.group } else c
  let c := if c.domains.isEmpty then { c with domains := fileConfig.domains } else c
  let c := if c.checkInterval == 0 then { c with checkInterval := fileConfig.checkInterval } else c
  let c := if c.port == 0 then { c with port := fileConfig.port } else c
  let c := if c.logLevel == "" then { c with logLevel := fileConfig.logLevel } else c
  let c := if c.timeout == 0 then { c with timeout := fileConfig.timeout } else c
  c

/-- part_002 `applyDefaults`, one definition per `if` of the source, in
source order (each condition reads a field no earlier step writes, so
the chain below composes them exactly as the source executes them). -/
def dfltCheckInterval (c : Config) : Config :=
  if c.checkInterval == 0 then { c with checkInterval := 3600 } else c

def dfltPort (c : Config) : Config :=
  if c.port == 0 then { c with port := 8080 } else c

def dfltLogLevel (c : Config) : Config :=
  if c.logLevel == "" then { c with logLevel := "info" } else c

def dfltTimeout (c : Config) : Config :=
  if c.timeout == 0 then { c with timeout := 30 } else c

def dfltDataId (c : Config) : Config :=
  if c.dataId == "" then { c with dataId := "domain-exporter" } else c

def dfltGroup (c : Config) : Config :=
  if c.group == "" then { c with group := "DEFAULT_GROUP" } else c

def dfltNamespaceId (c : Config) : Config :=
  if c.namespaceId == "" then { c with namespaceId := "public" } else c

/-- part_002 `applyDefaults`. -/
def applyDefaults (config : Config) : Config :=
  dfltNamespaceId (dfltGroup (dfltDataId (dfltTimeout (dfltLogLevel
    (dfltPort (dfltCheckInterval config))))))

/-- part_002 `LoadConfig` (environment-first variant).  `readFile` models
the `ioutil.ReadFile` outcome and `unmarshal` the `yaml.Unmarshal`
outcome (external library; absent YAML fields surface as zero values in
its result, as Go's unmarshaller leaves them).  Every failure of either
is silently ignored. -/
def LoadConfig (env : GoEnv) (filename : String)
    (readFile : Except Unit String) (unmarshal : String → Except Unit Config) :
    Except String Config :=
  let config := loadFromEnv env
  let config :=
    if filename != "" then
      match readFile with
      | .ok data =>
        match unmarshal data with
        | .ok fileConfig => mergeConfig config fileConfig
        | .error _ => config
      | .error _ => config
    else config
  .ok (applyDefaults config)

/- ## nacos.go `loadConfigFromNacos` (configuration-payload application) -/

/-- nacos.go `loadConfigFromNacos`, from the point where the payload
`content` has been fetched: empty content is an error; otherwise the
payload is unmarshalled (oracle `unmarshal`), the six connection fields
are copied back from the previous configuration, and defaults are
applied.  The returned configuration is what the manager stores and
publishes. -/
def loadConfigFromNacos (old : Config) (content : String)
    (unmarshal : String → Except Unit Config) : Except String Config :=
  if content == "" then
    .error "Nacos配置内容为空"
  else
    match unmarshal content with
    | .error _ => .error "yaml unmarshal error"
    | .ok nacosConfig =>
      let nacosConfig :=
        { nacosConfig with
          nacosUrl := old.nacosUrl
          username := old.username
          password := old.password
          namespaceId := old.namespaceId
          dataId := old.dataId
          group := old.group }
      .ok (applyDefaults nacosConfig)

/- ## The exporter (second document of src/check-nacos-config.md) -/

/-- One Prometheus `GaugeVec` labelled by domain: a finite partial map
from the label to the gauge value (`none` = no series emitted for that
label). -/
def Gauge : Type := String → Option Int

/-- `WithLabelValues(d).Set v`. -/
def gaugeSet (d : String) (v : Int) (g : Gauge) : Gauge :=
  fun x => if x == d then some v else g x

/-- `DeleteLabelValues d`. -/
def gaugeDelete (d : String) (g : Gauge) : Gauge :=
  fun x => if x == d then none else g x

/-- The four per-domain gauge vectors of `DomainExporter`. -/
structure MetricsState where
  domainExpiryDays : Gauge
  domainExpiryTime : Gauge
  domainCheckTime : Gauge
  domainStatus : Gauge

/-- Exporter `checkDomain` (check-nacos-config.md lines 334-374) as a
state transformer: `res` is the outcome of `GetDomainInfoWithFallback`
and `now` the check instant in Unix seconds.  On failure the source sets
status 0, the `-999` failure sentinel for remaining days, and expiry
timestamp 0; on success status 1 and the computed values. -/
def exporterCheckDomain (res : Except String WhoisDomainInfo) (now : Int)
    (domain : String) (st : MetricsState) : MetricsState :=
  let st := { st with domainCheckTime := gaugeSet domain now st.domainCheckTime }
  match res with
  | .error _ =>
    { st with
      domainStatus := gaugeSet domain 0 st.domainStatus
      domainExpiryDays := gaugeSet domain (-999) st.domainExpiryDays
      domainExpiryTime := gaugeSet domain 0 st.domainExpiryTime }
  | .ok info =>
    let expiry := info.expiryDate.unix
    { st with
      domainStatus := gaugeSet domain 1 st.domainStatus
      domainExpiryDays := gaugeSet domain ((expiry - now).tdiv 86400) st.domainExpiryDays
      domainExpiryTime := gaugeSet domain expiry st.domainExpiryTime }

/-- Exporter `checkAllDomains` (serial variant): one pass over the
configured domain list; `resolve` gives each domain's resolution outcome
and `now` its check instant. -/
def exporterCheckAllDomains (cfg : Config) (resolve : String → Except String WhoisDomainInfo)
    (now : String → Int) (st : MetricsState) : MetricsState :=
  cfg.domains.foldl (fun s d => exporterCheckDomain (resolve d) (now d) d s) st

/-- Delete every series of one domain (the loop body of
`cleanupMetricsForRemovedDomains`). -/
def deleteDomainSeries (d : String) (st : MetricsState) : MetricsState :=
  { domainExpiryDays := gaugeDelete d st.domainExpiryDays
    domainExpiryTime := gaugeDelete d st.domainExpiryTime
    domainCheckTime := gaugeDelete d st.domainCheckTime
    domainStatus := gaugeDelete d st.domainStatus }

/-- Exporter `cleanupMetricsForRemovedDomains`: the domains of the old
configuration minus those of the new one lose all four series. -/
def cleanupMetricsForRemovedDomains (oldConfig newConfig : Config)
    (st : MetricsState) : MetricsState :=
  let removed := oldConfig.domains.filter (fun d => decide (d ∉ newConfig.domains))
  removed.foldl (fun s d => deleteDomainSeries d s) st

/-- The configuration-update step of `watchConfigUpdates`: the live
configuration is swapped wholesale and the removed domains' metrics are
reclaimed (the log-only `logConfigChanges` call has no state effect). -/
def watchConfigUpdateStep (oldConfig newConfig : Config) (st : MetricsState) :
    Config × MetricsState :=
  (newConfig, cleanupMetricsForRemovedDomains oldConfig newConfig st)

/- ## Trigger coalescing and the worker semaphore -/

/-- Capacity of the exporter's `triggerChan` (`make(chan struct{}, 1)`). -/
def triggerCapacity : Nat := 1

/-- `TriggerCheck` / the trigger send in `watchConfigUpdates`: a
`select` with a `default` branch on the buffered channel — the signal is
enqueued if the buffer has room and dropped otherwise.  The state is the
number of buffered, not-yet-consumed signals. -/
def TriggerCheck (pending : Nat) : Nat :=
  if pending < triggerCapacity then pending + 1 else pending

/-- `k` back-to-back trigger signals before any is consumed. -/
def triggerTimes : Nat → Nat → Nat
  | 0, pending => pending
  | k + 1, pending => triggerTimes k (TriggerCheck pending)

/-- Each buffered signal wakes the monitoring loop exactly once, so the
number of extra passes a drained buffer produces equals its occupancy. -/
def extraPassesFromPending (pending : Nat) : Nat := pending

/-- Worker counts of one concurrent `checkAllDomains` pass
(src/unnamed/part_005 lines 231-257): every spawned goroutine is first
`waiting` on the semaphore, `holding` a slot while its `checkDomain`
resolution runs, and `done` after releasing. -/
structure PoolState where
  waiting : Nat
  holding : Nat
  done : Nat
deriving DecidableEq, Repr

/-- Interleaving semantics of the semaphore discipline with capacity `k`
(`semaphore <- struct{}{}` blocks unless fewer than `k` slots are taken;
`<-semaphore` releases). -/
inductive PoolStep (k : Nat) : PoolState → PoolState → Prop
  | acquire (w h d : Nat) : h < k → PoolStep k ⟨w + 1, h, d⟩ ⟨w, h + 1, d⟩
  | release (w h d : Nat) : PoolStep k ⟨w, h + 1, d⟩ ⟨w, h, d + 1⟩

/-- States a pass over `n` domains can reach from its spawn point. -/
inductive PoolReachable (k n : Nat) : PoolState → Prop
  | init : PoolReachable k n ⟨n, 0, 0⟩
  | step {s t : PoolState} : PoolReachable k n s → PoolStep k s t → PoolReachable k n t

/-- Equality of `Except` results is decidable componentwise (used to
evaluate the embedded functions on concrete inputs). -/
instance {ε α : Type} [DecidableEq ε] [DecidableEq α] : DecidableEq (Except ε α) := by
  intro x y
  cases x <;> cases y
  case error.error a b =>
    exact if h : a = b then .isTrue (by rw [h]) else .isFalse (by intro hc; cases hc; exact h rfl)
  case error.ok a b => exact .isFalse (by intro hc; cases hc)
  case ok.error a b => exact .isFalse (by intro hc; cases hc)
  case ok.ok a b =>
    exact if h : a = b then .isTrue (by rw [h]) else .isFalse (by intro hc; cases hc; exact h rfl)

/- ## Specification-side predicates and concrete fixtures -/

/-- Modelled from the spec: the sanity window — a candidate expiry "no
earlier than now minus 1 year and no later than now plus 20 years".
Stated from the spec's words to compare the extractor's behaviour
against; the current extractor has no counterpart of it. -/
def specSanityWindow (now t : GoTime) : Prop :=
  (now.subYears 1).le t ∧ t.le (now.addYears 20)

instance (now t : GoTime) : Decidable (specSanityWindow now t) := by
  unfold specSanityWindow; infer_instance

/-- A reference check instant (the extractor itself never consults a
clock, so its output is the same at every `now`). -/
def refNow : GoTime := ⟨2025, 10, 11, 0, 0, 0⟩

/-- WHOIS text whose only candidate lies far outside the sanity
window. -/
def rawOnly1990 : String :=
  "Domain Name: EXAMPLE.COM\nRegistry Expiry Date: 1990-01-01\n"

/-- WHOIS text with an out-of-window candidate under the first label and
an in-window candidate under a later label. -/
def raw1990Then2030 : String :=
  "Registry Expiry Date: 1990-01-01\nExpiration Date: 2030-01-01\n"

/-- The 1990 candidate date. -/
def date1990 : GoTime := ⟨1990, 1, 1, 0, 0, 0⟩

/-- The in-window 2030 candidate date. -/
def date2030 : GoTime := ⟨2030, 1, 1, 0, 0, 0⟩

/-- A structured parser that always fails (the oracle value for a
`whoisparser.Parse` error). -/
def failingParser : String → Except String ParsedWhois :=
  fun _ => .error "invalid whois data"

/-- WHOIS text with a manually extractable in-window date. -/
def raw2030 : String := "Registry Expiry Date: 2030-01-01\n"

/-- Metrics state with no series emitted yet. -/
def emptyMetrics : MetricsState :=
  ⟨fun _ => none, fun _ => none, fun _ => none, fun _ => none⟩

/-- Concrete live configuration before a payload application. -/
def oldNacosConfig : Config :=
  { domains := ["a.com"], checkInterval := 3600, port := 8080, logLevel := "info",
    timeout := 30, nacosUrl := "https://nacos.example", username := "nacos",
    password := "secret", namespaceId := "devops", dataId := "domain-exporter",
    group := "DEFAULT_GROUP", skipSslVerify := true }

/-- A payload that sets only the domain list (in particular it does not
mention `skip_ssl_verify`). -/
def nacosPayload : String := "domains:\n  - b.com\n"

/-- YAML-unmarshal oracle for `nacosPayload`: absent fields come out as
zero values, as Go's unmarshaller leaves them. -/
def payloadUnmarshal : String → Except Unit Config :=
  fun s => if s == nacosPayload then .ok { domains := ["b.com"] } else .error ()

/-- The configuration `loadConfigFromNacos` produces from
`oldNacosConfig` and `nacosPayload`. -/
def c5ResultConfig : Config :=
  { domains := ["b.com"], checkInterval := 3600, port := 8080, logLevel := "info",
    timeout := 30, nacosUrl := "https://nacos.example", username := "nacos",
    password := "secret", namespaceId := "devops", dataId := "domain-exporter",
    group := "DEFAULT_GROUP", skipSslVerify := false }

/-- A standard-query oracle that fails on every attempt. -/
def stdAlwaysFail : Nat → Except String WhoisDomainInfo :=
  fun _ => .error "connect timeout"

/-- The result a backup WHOIS server would deliver. -/
def verisignInfo : WhoisDomainInfo :=
  { domain := "example.com", expiryDate := ⟨2030, 8, 13, 4, 0, 0⟩,
    registrar := "Verisign", status := "active",
    method := "whois(whois.verisign-grs.com)" }

/-- A backup-server oracle on which the Verisign registry server
answers. -/
def backupOracle : String → Except String WhoisDomainInfo :=
  fun s => if s == "whois.verisign-grs.com" then .ok verisignInfo
    else .error "connect timeout"

/-- A backup-server oracle that always fails. -/
def backupAlwaysFail : String → Except String WhoisDomainInfo :=
  fun _ => .error "dial error"

/-- Raw WHOIS text carrying a genuine github.com expiry reading equal to
"one year after `refNow`". -/
def githubGoodRaw : String := "Registry Expiry Date: 2026-10-11\n"

/-- Primary WHOIS oracle that fails every attempt (rate-limited). -/
def failWhois : Nat → Except String String := fun _ => .error "rate limited"

/-- Primary WHOIS oracle returning the genuine github.com text. -/
def goodWhois : Nat → Except String String := fun _ => .ok githubGoodRaw

/-- Structured-parser oracle that always fails (unused on the manual
path). -/
def noParser : String → Except String ParsedWhois := fun _ => .error "parse error"

/-- Environment fixture: only `DOMAINS` set. -/
def envOnlyDomains : GoEnv := { domains := "a.com, b.com" }

/-- An unmarshal oracle that always fails (malformed YAML). -/
def badYamlUnmarshal : String → Except Unit Config := fun _ => .error ()

/-- All four series of domain `d` are absent from the collection. -/
def seriesAbsent (d : String) (st : MetricsState) : Prop :=
  st.domainExpiryDays d = none ∧ st.domainExpiryTime d = none
  ∧ st.domainCheckTime d = none ∧ st.domainStatus d = none

/-- Configuration before a domain-list shrink. -/
def c4old : Config := { domains := ["a.com", "b.com"] }

/-- Configuration after dropping `a.com`. -/
def c4new : Config := { domains := ["b.com"] }

/-- Metrics state in which `a.com` has emitted series (one failed
check). -/
def c4st : MetricsState := exporterCheckDomain (.error "x") 50 "a.com" emptyMetrics

/- ## Helper lemmas -/

theorem dfltCheckInterval_pres (c : Config) :
    (dfltCheckInterval c).nacosUrl = c.nacosUrl ∧ (dfltCheckInterval c).username = c.username
    ∧ (dfltCheckInterval c).password = c.password
    ∧ (dfltCheckInterval c).skipSslVerify = c.skipSslVerify
    ∧ (dfltCheckInterval c).namespaceId = c.namespaceId
    ∧ (dfltCheckInterval c).dataId = c.dataId
    ∧ (dfltCheckInterval c).group = c.group := by
  unfold dfltCheckInterval; split <;> exact ⟨rfl, rfl, rfl, rfl, rfl, rfl, rfl⟩

theorem dfltPort_pres (c : Config) :
    (dfltPort c).nacosUrl = c.nacosUrl ∧ (dfltPort c).username = c.username
    ∧ (dfltPort c).password = c.password ∧ (dfltPort c).skipSslVerify = c.skipSslVerify
    ∧ (dfltPort c).namespaceId = c.namespaceId ∧ (dfltPort c).dataId = c.dataId
    ∧ (dfltPort c).group = c.group := by
  unfold dfltPort; split <;> exact ⟨rfl, rfl, rfl, rfl, rfl, rfl, rfl⟩

theorem dfltLogLevel_pres (c : Config) :
    (dfltLogLevel c).nacosUrl = c.nacosUrl ∧ (dfltLogLevel c).username = c.username
    ∧ (dfltLogLevel c).password = c.password ∧ (dfltLogLevel c).skipSslVerify = c.skipSslVerify
    ∧ (dfltLogLevel c).namespaceId = c.namespaceId ∧ (dfltLogLevel c).dataId = c.dataId
    ∧ (dfltLogLevel c).group = c.group := by
  unfold dfltLogLevel; split <;> exact ⟨rfl, rfl, rfl, rfl, rfl, rfl, rfl⟩

theorem dfltTimeout_pres (c : Config) :
    (dfltTimeout c).nacosUrl = c.nacosUrl ∧ (dfltTimeout c).username = c.username
    ∧ (dfltTimeout c).password = c.password ∧ (dfltTimeout c).skipSslVerify = c.skipSslVerify
    ∧ (dfltTimeout c).namespaceId = c.namespaceId ∧ (dfltTimeout c).dataId = c.dataId
    ∧ (dfltTimeout c).group = c.group := by
  unfold dfltTimeout; split <;> exact ⟨rfl, rfl, rfl, rfl, rfl, rfl, rfl⟩

theorem dfltDataId_pres (c : Config) :
    (dfltDataId c).nacosUrl = c.nacosUrl ∧ (dfltDataId c).username = c.username
    ∧ (dfltDataId c).password = c.password ∧ (dfltDataId c).skipSslVerify = c.skipSslVerify
    ∧ (dfltDataId c).namespaceId = c.namespaceId
    ∧ (c.dataId ≠ "" → (dfltDataId c).dataId = c.dataId)
    ∧ (dfltDataId c).group = c.group := by
  unfold dfltDataId; split
  · rename_i h
    exact ⟨rfl, rfl, rfl, rfl, rfl, fun hne => absurd (eq_of_beq h) hne, rfl⟩
  · exact ⟨rfl, rfl, rfl, rfl, rfl, fun _ => rfl, rfl⟩

theorem dfltGroup_pres (c : Config) :
    (dfltGroup c).nacosUrl = c.nacosUrl ∧ (dfltGroup c).username = c.username
    ∧ (dfltGroup c).password = c.password ∧ (dfltGroup c).skipSslVerify = c.skipSslVerify
    ∧ (dfltGroup c).namespaceId = c.namespaceId ∧ (dfltGroup c).dataId = c.dataId
    ∧ (c.group ≠ "" → (dfltGroup c).group = c.group) := by
  unfold dfltGroup; split
  · rename_i h
    exact ⟨rfl, rfl, rfl, rfl, rfl, rfl, fun hne => absurd (eq_of_beq h) hne⟩
  · exact ⟨rfl, rfl, rfl, rfl, rfl, rfl, fun _ => rfl⟩

theorem dfltNamespaceId_pres (c : Config) :
    (dfltNamespaceId c).nacosUrl = c.nacosUrl ∧ (dfltNamespaceId c).username = c.username
    ∧ (dfltNamespaceId c).password = c.password
    ∧ (dfltNamespaceId c).skipSslVerify = c.skipSslVerify
    ∧ (c.namespaceId ≠ "" → (dfltNamespaceId c).namespaceId = c.namespaceId)
    ∧ (dfltNamespaceId c).dataId = c.dataId
    ∧ (dfltNamespaceId c).group = c.group := by
  unfold dfltNamespaceId; split
  · rename_i h
    exact ⟨rfl, rfl, rfl, rfl, fun hne => absurd (eq_of_beq h) hne, rfl, rfl⟩
  · exact ⟨rfl, rfl, rfl, rfl, fun _ => rfl, rfl, rfl⟩

theorem applyDefaults_connPres (c : Config) :
    (applyDefaults c).nacosUrl = c.nacosUrl ∧ (applyDefaults c).username = c.username
    ∧ (applyDefaults c).password = c.password
    ∧ (applyDefaults c).skipSslVerify = c.skipSslVerify
    ∧ (c.namespaceId ≠ "" → (applyDefaults c).namespaceId = c.namespaceId)
    ∧ (c.dataId ≠ "" → (applyDefaults c).dataId = c.dataId)
    ∧ (c.group ≠ "" → (applyDefaults c).group = c.group) := by
  obtain ⟨u1, n1, p1, s1, ns1, di1, g1⟩ := dfltCheckInterval_pres c
  obtain ⟨u2, n2, p2, s2, ns2, di2, g2⟩ := dfltPort_pres (dfltCheckInterval c)
  obtain ⟨u3, n3, p3, s3, ns3, di3, g3⟩ :=
    dfltLogLevel_pres (dfltPort (dfltCheckInterval c))
  obtain ⟨u4, n4, p4, s4, ns4, di4, g4⟩ :=
    dfltTimeout_pres (dfltLogLevel (dfltPort (dfltCheckInterval c)))
  obtain ⟨u5, n5, p5, s5, ns5, di5, g5⟩ :=
    dfltDataId_pres (dfltTimeout (dfltLogLevel (dfltPort (dfltCheckInterval c))))
  obtain ⟨u6, n6, p6, s6, ns6, di6, g6⟩ :=
    dfltGroup_pres (dfltDataId (dfltTimeout (dfltLogLevel (dfltPort (dfltCheckInterval c)))))
  obtain ⟨u7, n7, p7, s7, ns7, di7, g7⟩ :=
    dfltNamespaceId_pres (dfltGroup (dfltDataId (dfltTimeout (dfltLogLevel
      (dfltPort (dfltCheckInterval c))))))
  unfold applyDefaults
  refine ⟨?_, ?_, ?_, ?_, ?_, ?_, ?_⟩
  · rw [u7, u6, u5, u4, u3, u2, u1]
  · rw [n7, n6, n5, n4, n3, n2, n1]
  · rw [p7, p6, p5, p4, p3, p2, p1]
  · rw [s7, s6, s5, s4, s3, s2, s1]
  · intro hne
    have hx : (dfltGroup (dfltDataId (dfltTimeout (dfltLogLevel (dfltPort
        (dfltCheckInterval c)))))).namespaceId = c.namespaceId := by
      rw [ns6, ns5, ns4, ns3, ns2, ns1]
    rw [ns7 (by rw [hx]; exact hne), hx]
  · intro hne
    have hx : (dfltTimeout (dfltLogLevel (dfltPort
        (dfltCheckInterval c)))).dataId = c.dataId := by
      rw [di4, di3, di2, di1]
    rw [di7, di6, di5 (by rw [hx]; exact hne), hx]
  · intro hne
    have hx : (dfltDataId (dfltTimeout (dfltLogLevel (dfltPort
        (dfltCheckInterval c))))).group = c.group := by
      rw [g5, g4, g3, g2, g1]
    rw [g7, g6 (by rw [hx]; exact hne), hx]

theorem deleteSeries_self (d : String) (st : MetricsState) :
    seriesAbsent d (deleteDomainSeries d st) := by
  unfold seriesAbsent deleteDomainSeries gaugeDelete
  simp

theorem deleteSeries_keepAbsent (x d : String) (st : MetricsState)
    (h : seriesAbsent d st) : seriesAbsent d (deleteDomainSeries x st) := by
  unfold seriesAbsent at h
  unfold seriesAbsent deleteDomainSeries gaugeDelete
  obtain ⟨h1, h2, h3, h4⟩ := h
  refine ⟨?_, ?_, ?_, ?_⟩ <;> dsimp only <;> split <;> simp_all

theorem foldlDelete_keepAbsent (l : List String) (d : String) (st : MetricsState)
    (h : seriesAbsent d st) :
    seriesAbsent d (l.foldl (fun s x => deleteDomainSeries x s) st) := by
  induction l generalizing st with
  | nil => exact h
  | cons x xs ih => exact ih _ (deleteSeries_keepAbsent x d st h)

theorem foldlDelete_mem (l : List String) (d : String) (st : MetricsState)
    (h : d ∈ l) :
    seriesAbsent d (l.foldl (fun s x => deleteDomainSeries x s) st) := by
  induction l generalizing st with
  | nil => cases h
  | cons x xs ih =>
    rcases List.mem_cons.mp h with hdx | hmem
    · subst hdx
      exact foldlDelete_keepAbsent xs d _ (deleteSeries_self d st)
    · exact ih _ hmem

theorem triggerTimes_fromOne (k : Nat) : triggerTimes k 1 = 1 := by
  induction k with
  | zero => rfl
  | succ k ih =>
    have h1 : TriggerCheck 1 = 1 := rfl
    calc triggerTimes (k + 1) 1 = triggerTimes k (TriggerCheck 1) := rfl
      _ = triggerTimes k 1 := by rw [h1]
      _ = 1 := ih

/- ## Claim C1 -/

/-- C1, counterexample: the claim says every candidate outside the sanity
window is rejected and a window-less text yields NotFound; but the
current extractor (whois.go `parseFlexibleDate`, reached through
`parseExpirationFromRawData`) performs no window check at all — it never
consults a clock — so the 1990 candidate of `rawOnly1990` is accepted
and returned, even though it lies far outside the window at the
reference instant (or any present-day instant). -/
theorem c1_counterexample :
    parseExpirationFromRawData "example.com" rawOnly1990 =
      .ok { domain := "example.com", expiryDate := date1990, registrar := "Unknown",
            status := "active", method := "whois(manual_parse)" }
    ∧ ¬ specSanityWindow refNow date1990 := by
  decide

/-- C1, amended: the extractor applies no sanity window.  Any candidate
whose value parses under one of the known layouts is accepted regardless
of its relation to "now": on a text whose first label carries an
out-of-window 1990 date and a later label an in-window 2030 date, the
1990 date is returned rather than rejected-and-scan-continued, and
NotFound arises only when no label's value parses at all. -/
theorem c1_no_sanity_window :
    parseExpirationFromRawData "example.com" raw1990Then2030 =
      .ok { domain := "example.com", expiryDate := date1990, registrar := "Unknown",
            status := "active", method := "whois(manual_parse)" }
    ∧ ¬ specSanityWindow refNow date1990
    ∧ specSanityWindow refNow date2030 := by
  decide

/- ## Claim C2 -/

/-- C2, counterexample: the claim says a structured-parser failure alone
never produces a final error without the manual fallback having been
tried; but whois.go `parseDomainInfo` returns immediately when the
structured parser errors, even on a text from which the manual extractor
(`parseExpirationFromRawData`) would have recovered a date. -/
theorem c2_counterexample :
    parseDomainInfo failingParser "example.com" raw2030 =
      .error "whois解析失败: invalid whois data"
    ∧ parseExpirationFromRawData "example.com" raw2030 =
      .ok { domain := "example.com", expiryDate := date2030, registrar := "Unknown",
            status := "active", method := "whois(manual_parse)" } := by
  decide

/-- C2, amended: extraction attempts the structured parse first and falls
back to manual line extraction exactly when the structured parse
*succeeded* but its expiration field is empty or matches none of the
known layouts; when the structured parser itself fails, an error is
returned immediately and the manual fallback is not tried. -/
theorem c2_structured_parse_flow (wp : String → Except String ParsedWhois)
    (domain raw : String) :
    (∀ e, wp raw = .error e →
      parseDomainInfo wp domain raw = .error ("whois解析失败: " ++ e))
    ∧ (∀ p, wp raw = .ok p → p.expirationDate = "" →
      parseDomainInfo wp domain raw = parseExpirationFromRawData domain raw)
    ∧ (∀ p, wp raw = .ok p → p.expirationDate ≠ "" →
      tryFormats ("2006-01-02T15:04:05Z" :: parseDomainInfoFormats) p.expirationDate = none →
      parseDomainInfo wp domain raw = parseExpirationFromRawData domain raw) := by
  refine ⟨?_, ?_, ?_⟩
  · intro e he; unfold parseDomainInfo; rw [he]
  · intro p hp hemp; unfold parseDomainInfo; rw [hp]; simp [hemp]
  · intro p hp hne hfmt; unfold parseDomainInfo; rw [hp]; simp [hne, hfmt]

/-- C2, witness: the amended flow applied to the failing parser and
`raw2030`. -/
theorem c2_structured_parse_flow_witness :
    parseDomainInfo failingParser "example.com" raw2030 =
      .error ("whois解析失败: " ++ "invalid whois data") :=
  (c2_structured_parse_flow failingParser "example.com" raw2030).1
    "invalid whois data" rfl

/- ## Claim C3 -/

/-- C3: whenever a check of a domain fails (the resolver's retries and
fallbacks exhausted), the exporter records the failure sentinel: the
days-remaining gauge is set to the fixed -999 value (never a computed or
stale one), the status gauge — the record's validity bit — to 0, and the
expiry-timestamp gauge to 0; and after any non-empty run of consecutive
failing checks (one per tick) those values still stand, so the sentinel
is reported on every tick until a check succeeds. -/
theorem c3_failure_sentinel (st : MetricsState) (domain : String)
    (fails : List (String × Int)) (h : fails ≠ []) :
    let final := fails.foldl
      (fun s p => exporterCheckDomain (.error p.1) p.2 domain s) st
    final.domainExpiryDays domain = some (-999)
    ∧ final.domainStatus domain = some 0
    ∧ final.domainExpiryTime domain = some 0 := by
  induction fails generalizing st with
  | nil => exact absurd rfl h
  | cons p rest ih =>
    cases rest with
    | nil => simp [exporterCheckDomain, gaugeSet]
    | cons q rs => exact ih _ (by simp)

/-- C3, witness: one failed check of `a.com` from the empty metrics
state. -/
theorem c3_failure_sentinel_witness :
    let final := [("connect timeout", (100 : Int))].foldl
      (fun s p => exporterCheckDomain (.error p.1) p.2 "a.com" s) emptyMetrics
    final.domainExpiryDays "a.com" = some (-999)
    ∧ final.domainStatus "a.com" = some 0
    ∧ final.domainExpiryTime "a.com" = some 0 :=
  c3_failure_sentinel emptyMetrics "a.com" [("connect timeout", 100)] (by decide)

/- ## Claim C4 -/

/-- C4: when a configuration update drops a domain that the old list
contained, the update step swaps in the new configuration wholesale and
deletes all four of the dropped domain's metric series (days remaining,
expiry timestamp, last-check timestamp, check status), so the next
collection contains no series for it. -/
theorem c4_metric_retraction (oldC newC : Config) (st : MetricsState) (d : String)
    (hin : d ∈ oldC.domains) (hout : d ∉ newC.domains) :
    (watchConfigUpdateStep oldC newC st).1 = newC
    ∧ seriesAbsent d (watchConfigUpdateStep oldC newC st).2 := by
  refine ⟨rfl, ?_⟩
  unfold watchConfigUpdateStep cleanupMetricsForRemovedDomains
  apply foldlDelete_mem
  simp [List.mem_filter, hin, hout]

/-- C4, witness: dropping `a.com` from the configuration retracts its
series. -/
theorem c4_metric_retraction_witness :
    (watchConfigUpdateStep c4old c4new c4st).1 = c4new
    ∧ seriesAbsent "a.com" (watchConfigUpdateStep c4old c4new c4st).2 :=
  c4_metric_retraction c4old c4new c4st "a.com" (by decide) (by decide)

/- ## Claim C5 -/

/-- C5, counterexample: the claim says every connection setting,
including the SSL-verification flag, survives a payload application; but
`loadConfigFromNacos` copies back only the six fields NacosUrl, Username,
Password, NamespaceId, DataId and Group — `SkipSSLVerify` is taken from
the unmarshalled payload, so a payload that does not mention it resets
the flag from true to false. -/
theorem c5_counterexample :
    loadConfigFromNacos oldNacosConfig nacosPayload payloadUnmarshal = .ok c5ResultConfig
    ∧ c5ResultConfig.skipSslVerify = false
    ∧ oldNacosConfig.skipSslVerify = true := by
  decide

/-- C5, amended: when a payload is applied, the six connection fields —
endpoint URL, username, password, namespace id, data id and group — keep
their previous values (the last three provided they were non-empty, as
they always are after defaulting; `applyDefaults` would refill empty
ones); the SSL-verification flag is *not* preserved and business
parameters come from the payload. -/
theorem c5_connection_preserved (old : Config) (content : String)
    (um : String → Except Unit Config) (cfg : Config)
    (h : loadConfigFromNacos old content um = .ok cfg) :
    cfg.nacosUrl = old.nacosUrl ∧ cfg.username = old.username
    ∧ cfg.password = old.password
    ∧ (old.namespaceId ≠ "" → cfg.namespaceId = old.namespaceId)
    ∧ (old.dataId ≠ "" → cfg.dataId = old.dataId)
    ∧ (old.group ≠ "" → cfg.group = old.group) := by
  unfold loadConfigFromNacos at h
  by_cases hc : (content == "") = true
  · rw [if_pos hc] at h; cases h
  · rw [if_neg hc] at h
    cases hum : um content with
    | error e => rw [hum] at h; cases h
    | ok nc =>
      rw [hum] at h
      injection h with h
      subst h
      obtain ⟨hu, hn, hp, _, hns, hd, hg⟩ := applyDefaults_connPres
        ⟨nc.domains, nc.checkInterval, nc.port, nc.logLevel, nc.timeout,
         old.nacosUrl, old.username, old.password, old.namespaceId, old.dataId,
         old.group, nc.skipSslVerify⟩
      exact ⟨hu, hn, hp, fun hne => hns hne, fun hne => hd hne, fun hne => hg hne⟩

/-- C5, witness: the amended preservation at the concrete payload
application of the counterexample. -/
theorem c5_connection_preserved_witness :
    c5ResultConfig.nacosUrl = oldNacosConfig.nacosUrl
    ∧ c5ResultConfig.namespaceId = oldNacosConfig.namespaceId :=
  ⟨(c5_connection_preserved oldNacosConfig nacosPayload payloadUnmarshal
      c5ResultConfig (by decide)).1,
   (c5_connection_preserved oldNacosConfig nacosPayload payloadUnmarshal
      c5ResultConfig (by decide)).2.2.2.1 (by decide)⟩

/- ## Claim C6 -/

/-- C6: trigger signals coalesce through the capacity-one buffered
channel with a drop-on-full send (`TriggerCheck` and the identical send
in `watchConfigUpdates`): any number `k ≥ 1` of back-to-back trigger
signals issued before a pass consumes the buffer leaves exactly one
pending signal, hence exactly one extra check pass — not `k`. -/
theorem c6_trigger_coalescing (k : Nat) (h : 1 ≤ k) :
    extraPassesFromPending (triggerTimes k 0) = 1 := by
  cases k with
  | zero => omega
  | succ m =>
    have h0 : TriggerCheck 0 = 1 := rfl
    calc extraPassesFromPending (triggerTimes (m + 1) 0)
        = triggerTimes m (TriggerCheck 0) := rfl
      _ = triggerTimes m 1 := by rw [h0]
      _ = 1 := triggerTimes_fromOne m

/-- C6, witness: two back-to-back trigger signals yield one extra
pass. -/
theorem c6_trigger_coalescing_witness :
    1 ≤ 2 ∧ extraPassesFromPending (triggerTimes 2 0) = 1 :=
  ⟨by decide, c6_trigger_coalescing 2 (by decide)⟩

/- ## Claim C7 -/

/-- C7, counterexample: the claim says a failure is final only after all
attempts *and all backup servers* are exhausted; but the current wrapper
(whois.go `GetDomainInfoWithFallback`) retries the standard query alone
and consults no backup server: with the standard query failing every
attempt it returns a final error even though the backup-server chain of
the older draft — on the same network conditions — would have succeeded
at the Verisign registry server. -/
theorem c7_counterexample :
    (GetDomainInfoWithFallback stdAlwaysFail).1 = .error "WHOIS查询失败: connect timeout"
    ∧ GetDomainInfoWithBackupServers backupOracle
        ["whois.verisign-grs.com"] "connect timeout" = .ok verisignInfo := by
  decide

/-- C7, amended: the caller-level wrapper performs up to 2 attempts of
the *standard* resolution only, sleeping attempt-index × 1 second between
attempts (the recorded delay list), and on total failure returns an error
wrapping the *last* attempt's failure; backup WHOIS servers appear only
in the older draft resolver, whose chain tries each server once (no
caller-level retry around it) and likewise reports the last server's
failure. -/
theorem c7_retry_wrapper (std : Nat → Except String WhoisDomainInfo)
    (q : String → Except String WhoisDomainInfo) (s1 s2 last e1 e2 f1 f2 : String)
    (h1 : std 1 = .error e1) (h2 : std 2 = .error e2)
    (hq1 : q s1 = .error f1) (hq2 : q s2 = .error f2) :
    GetDomainInfoWithFallback std = (.error ("WHOIS查询失败: " ++ e2), [1])
    ∧ GetDomainInfoWithBackupServers q [s1, s2] last =
        .error ("所有备用WHOIS服务器都无法访问，最后错误: " ++ f2) := by
  constructor
  · unfold GetDomainInfoWithFallback fallbackMaxRetries
    simp [fallbackLoop, h1, h2]
  · simp [GetDomainInfoWithBackupServers, hq1, hq2]

/-- C7, witness: both conjuncts at the always-failing oracles. -/
theorem c7_retry_wrapper_witness :
    GetDomainInfoWithFallback stdAlwaysFail =
      (.error ("WHOIS查询失败: " ++ "connect timeout"), [1])
    ∧ GetDomainInfoWithBackupServers backupAlwaysFail ["a", "b"] "" =
        .error ("所有备用WHOIS服务器都无法访问，最后错误: " ++ "dial error") :=
  c7_retry_wrapper stdAlwaysFail backupAlwaysFail "a" "b" ""
    "connect timeout" "connect timeout" "dial error" "dial error" rfl rfl rfl rfl

/- ## Claim C8 -/

/-- C8, counterexample: the claim says an estimated result is tagged with
resolution method "estimated" so it is distinguishable from a true
reading; but the README checker's `DomainInfo` carries no method field at
all, and the record produced for github.com when the primary query fails
(estimate "one year from now") is *identical* to the record produced when
the query succeeds with a genuine reading of the same date — nothing
distinguishes them. -/
theorem c8_counterexample :
    checkerCheckDomain (getDomainExpiryDate failWhois noParser refNow "github.com")
        refNow "github.com"
      = checkerCheckDomain (getDomainExpiryDate goodWhois noParser refNow "github.com")
        refNow "github.com"
    ∧ checkerCheckDomain (getDomainExpiryDate failWhois noParser refNow "github.com")
        refNow "github.com"
      = { name := "github.com", description := "github.com",
          expiryDate := ⟨2026, 10, 11, 0, 0, 0⟩, daysLeft := 365,
          isValid := true, error := "", lastCheck := refNow } := by
  decide

/-- C8, amended: for each domain of the static special-case registry
(github.com and stackoverflow.com, to which `getDomainExpiryDate`
dispatches), the dedicated handler on primary-query failure returns the
conservative estimate of one year from now instead of propagating an
error — but the result carries no "estimated" tag (the checker's record
type has no resolution-method field), so it is not distinguishable from
a true reading. -/
theorem c8_estimate_policy (e : String) (now : GoTime) :
    getGithubExpiryDate (.error e) now = .ok (now.addYears 1)
    ∧ getStackOverflowExpiryDate (.error e) now = .ok (now.addYears 1)
    ∧ (∀ wp, getDomainExpiryDate (fun _ => .error e) wp now "github.com"
        = .ok (now.addYears 1))
    ∧ (∀ wp, getDomainExpiryDate (fun _ => .error e) wp now "stackoverflow.com"
        = .ok (now.addYears 1)) := by
  exact ⟨rfl, rfl, fun wp => rfl, fun wp => rfl⟩

/- ## Claim C9 -/

/-- C9: under the semaphore discipline of the concurrent
`checkAllDomains` pass (capacity-`k` buffered channel acquired before
each resolution, released after), every reachable state of a pass has at
most `k` resolutions in flight — excess workers stay blocked in
`waiting` until a slot frees. -/
theorem c9_semaphore_bound (k n : Nat) (s : PoolState)
    (h : PoolReachable k n s) : s.holding ≤ k := by
  induction h with
  | init => exact Nat.zero_le k
  | step _ hstep ih =>
    cases hstep with
    | acquire w hh d hk => exact hk
    | release w hh d => exact Nat.le_of_succ_le ih

/-- C9, witness: with capacity 2 and three domains, the state after one
acquisition is reachable and respects the bound. -/
theorem c9_semaphore_bound_witness :
    PoolReachable 2 3 ⟨2, 1, 0⟩ ∧ (⟨2, 1, 0⟩ : PoolState).holding ≤ 2 := by
  have hr : PoolReachable 2 3 ⟨2, 1, 0⟩ :=
    PoolReachable.step PoolReachable.init (PoolStep.acquire 2 0 0 (by decide))
  exact ⟨hr, c9_semaphore_bound 2 3 ⟨2, 1, 0⟩ hr⟩

/- ## Claim C10 -/

/-- C10: the environment-first `LoadConfig` is total — for every
environment, filename and file outcome it returns `ok` (never an error);
when the filename is non-empty but the file is unreadable or its YAML is
malformed the file is silently ignored and the result is the
environment-derived configuration with defaults applied, and when the
file parses its fields are merged (environment first) before defaults. -/
theorem c10_loadconfig_total (env : GoEnv) (filename : String)
    (readFile : Except Unit String) (um : String → Except Unit Config) :
    (∃ cfg, LoadConfig env filename readFile um = .ok cfg)
    ∧ (filename ≠ "" → readFile = .error () →
        LoadConfig env filename readFile um = .ok (applyDefaults (loadFromEnv env)))
    ∧ (∀ data, filename ≠ "" → readFile = .ok data → um data = .error () →
        LoadConfig env filename readFile um = .ok (applyDefaults (loadFromEnv env)))
    ∧ (∀ data fileCfg, filename ≠ "" → readFile = .ok data → um data = .ok fileCfg →
        LoadConfig env filename readFile um =
          .ok (applyDefaults (mergeConfig (loadFromEnv env) fileCfg))) := by
  refine ⟨⟨_, rfl⟩, ?_, ?_, ?_⟩
  · intro hfn hrf
    simp [LoadConfig, hrf, hfn]
  · intro data hfn hrf hum
    simp [LoadConfig, hrf, hum, hfn]
  · intro data fileCfg hfn hrf hum
    simp [LoadConfig, hrf, hum, hfn]

/-- C10, witness: a present but malformed YAML file is ignored and the
environment-plus-defaults configuration is returned. -/
theorem c10_loadconfig_total_witness :
    ("config.yaml" : String) ≠ ""
    ∧ LoadConfig envOnlyDomains "config.yaml" (.ok "domains: [") badYamlUnmarshal
        = .ok (applyDefaults (loadFromEnv envOnlyDomains)) :=
  ⟨by decide,
   (c10_loadconfig_total envOnlyDomains "config.yaml" (.ok "domains: [")
      badYamlUnmarshal).2.2.1 "domains: [" (by decide) rfl rfl⟩

end DomainExporter
